import Mathlib

/-!
Shallow embedding of paasta_tools/marathon_serviceinit.py and the
specification claims about it.

Collaborator functions that live outside this file's source
(PaastaColors, compose_job_id, is_under_replicated, backend_is_up,
match_backends_and_tasks) are modelled from the spec and marked as such
in their doc comments.  Everything else is translated directly from
marathon_serviceinit.py; collaborator query results (task counts, app
counts, backend lists, discovery locations) become explicit parameters.
-/

namespace PaastaColors

/-- Modelled from the spec: terminal colour rendering is an external
collaborator.  Each colour wraps the text in a distinct ANSI escape code. -/
def color_text (code : String) (s : String) : String :=
  code ++ s ++ "\x1b[0m"

/-- Modelled from the spec: red colouring. -/
def red (s : String) : String := color_text "\x1b[31m" s

/-- Modelled from the spec: green colouring. -/
def green (s : String) : String := color_text "\x1b[32m" s

/-- Modelled from the spec: yellow colouring. -/
def yellow (s : String) : String := color_text "\x1b[33m" s

/-- Modelled from the spec: cyan colouring. -/
def cyan (s : String) : String := color_text "\x1b[36m" s

/-- Modelled from the spec: bold rendering. -/
def bold (s : String) : String := color_text "\x1b[1m" s

/-- Modelled from the spec: grey colouring. -/
def grey (s : String) : String := color_text "\x1b[38;5;242m" s

/-- Modelled from the spec: the default (uncoloured) rendering code. -/
def defaultColor (s : String) : String := color_text "\x1b[39m" s

end PaastaColors

/-- Modelled from the spec: compose_job_id (from paasta_tools.utils) joins
the service name and the instance name with the SPACER, producing the
service.instance pair used in messages. -/
def compose_job_id (service instanceName : String) : String :=
  service ++ "." ++ instanceName

/-- Embeds the status/instance-count classification of status_marathon_job
(marathon_serviceinit.py lines 96-104): running_instances is compared to
normal_instance_count with the Healthy branch first, then the zero check. -/
def marathon_job_status_pair (running_instances normal_instance_count : Nat) :
    String × String :=
  if running_instances ≥ normal_instance_count then
    (PaastaColors.green "Healthy",
     PaastaColors.green
       ("(" ++ toString running_instances ++ "/" ++
        toString normal_instance_count ++ ")"))
  else if running_instances = 0 then
    (PaastaColors.yellow "Critical",
     PaastaColors.red
       ("(" ++ toString running_instances ++ "/" ++
        toString normal_instance_count ++ ")"))
  else
    (PaastaColors.yellow "Warning",
     PaastaColors.yellow
       ("(" ++ toString running_instances ++ "/" ++
        toString normal_instance_count ++ ")"))

/-- Embeds status_marathon_job (lines 87-109).  The orchestrator query
results (whether the app id is running, the number of running tasks and the
number of active deployments) are passed as parameters. -/
def status_marathon_job (service instanceName app_id : String)
    (normal_instance_count : Nat) (is_app_id_running : Bool)
    (tasks_running : Nat) (deployments : Nat) : String :=
  let name := PaastaColors.cyan (compose_job_id service instanceName)
  if is_app_id_running then
    let deploy_status :=
      if deployments = 0 then PaastaColors.bold "Running"
      else PaastaColors.yellow "Deploying"
    let p := marathon_job_status_pair tasks_running normal_instance_count
    "Marathon:   " ++ p.1 ++ " - up with " ++ p.2 ++ " instances. Status: " ++
      deploy_status ++ "."
  else
    let red_not := PaastaColors.red "NOT"
    let status := PaastaColors.red "Critical"
    "Marathon:   " ++ status ++ " - " ++ name ++ " (app " ++ app_id ++ ") is " ++
      red_not ++ " running in Marathon."

/-- Embeds the status/count classification of status_mesos_tasks
(marathon_serviceinit.py lines 380-388): the count of running-and-active
tasks is compared to normal_instance_count with the Healthy branch first,
then the zero check. -/
def mesos_tasks_status_pair (count normal_instance_count : Nat) :
    String × String :=
  if count ≥ normal_instance_count then
    (PaastaColors.green "Healthy",
     PaastaColors.green
       ("(" ++ toString count ++ "/" ++ toString normal_instance_count ++ ")"))
  else if count = 0 then
    (PaastaColors.red "Critical",
     PaastaColors.red
       ("(" ++ toString count ++ "/" ++ toString normal_instance_count ++ ")"))
  else
    (PaastaColors.yellow "Warning",
     PaastaColors.yellow
       ("(" ++ toString count ++ "/" ++ toString normal_instance_count ++ ")"))

/-- Embeds status_mesos_tasks (lines 376-390).  The execution-layer query
result (the number of running and active tasks for the job id) is passed
as the running_count parameter. -/
def status_mesos_tasks (running_count normal_instance_count : Nat) : String :=
  let p := mesos_tasks_status_pair running_count normal_instance_count
  let running_string := PaastaColors.bold "TASK_RUNNING"
  "Mesos:      " ++ p.1 ++ " - " ++ p.2 ++ " tasks in the " ++ running_string ++
    " state."

/-- Embeds get_bouncing_status (lines 67-78).  The orchestrator query result
(the number of matching app ids) and the configured bounce method are passed
as parameters. -/
def get_bouncing_status (app_count : Nat) (bounce_method : String) : String :=
  if app_count = 0 then
    PaastaColors.red "Stopped"
  else if app_count = 1 then
    PaastaColors.green "Running"
  else if app_count > 1 then
    PaastaColors.yellow ("Bouncing (" ++ bounce_method ++ ")")
  else
    PaastaColors.red ("Unknown (count: " ++ toString app_count ++ ")")

/-- Modelled from the spec: is_under_replicated (from paasta_tools.utils) is
not part of the source file.  The spec defines the replication ratio as
num_available / expected_count x 100, rounded to an integer, and
under-replication as that ratio falling below crit_threshold.  The ratio is
computed as the round-half-up integer (200a + e) / (2e) by natural division;
the spec defines the ratio only for expected_count > 0, so expected_count = 0
is given the benign value 100 (reported, never under-replicated). -/
def is_under_replicated (num_available expected_count crit_threshold : Nat) :
    Bool × Nat :=
  if expected_count = 0 then
    (false, 100)
  else
    let r := (200 * num_available + expected_count) / (2 * expected_count)
    (r < crit_threshold, r)

/-- Embeds haproxy_backend_report (lines 156-171): fixed crit_threshold 50,
Critical with (up/expected, ratio%) when under-replicated, otherwise Healthy
with (up/expected). -/
def haproxy_backend_report (normal_instance_count up_backends : Nat) : String :=
  let crit_threshold := 50
  let p := is_under_replicated up_backends normal_instance_count crit_threshold
  let status :=
    if p.1 then PaastaColors.red "Critical" else PaastaColors.green "Healthy"
  let count :=
    if p.1 then
      PaastaColors.red
        ("(" ++ toString up_backends ++ "/" ++ toString normal_instance_count ++
         ", " ++ toString p.2 ++ "%)")
    else
      PaastaColors.green
        ("(" ++ toString up_backends ++ "/" ++ toString normal_instance_count ++
         ")")
  let up_string := PaastaColors.bold "UP"
  status ++ " - in haproxy with " ++ count ++ " total backends " ++ up_string ++
    " in this namespace."

/-- Python lexicographic less-or-equal on character lists, as used by the
built-in string comparison underlying sorted(..., key=..., reverse=True). -/
def pyStrLeList : List Char → List Char → Bool
  | [], _ => true
  | _ :: _, [] => false
  | a :: as, b :: bs =>
    if a < b then true
    else if b < a then false
    else pyStrLeList as bs

/-- Python lexicographic less-or-equal on strings. -/
def pyStrLe (a b : String) : Bool :=
  pyStrLeList a.data b.data

/-- Splitting a character list on a separator character, accumulator form. -/
def splitOnCharAux (sep : Char) : List Char → List Char → List (List Char)
  | [], acc => [acc.reverse]
  | c :: cs, acc =>
    if c = sep then acc.reverse :: splitOnCharAux sep cs []
    else splitOnCharAux sep cs (c :: acc)

/-- Python str.split with a one-character separator. -/
def splitOnChar (sep : Char) (s : String) : List String :=
  (splitOnCharAux sep s.data []).map String.mk

/-- A load-balancer Backend record: the haproxy CSV fields consumed by the
source (svname, status, check_status, check_code, check_duration, lastchg). -/
structure Backend where
  svname : String
  status : String
  check_status : String
  check_code : String
  check_duration : String
  lastchg : Nat
deriving Repr, DecidableEq

/-- An orchestrator Task as consumed by the backend matcher: its id, the
host it runs on and its allocated ports. -/
structure MTask where
  id : String
  host : String
  ports : List Nat
deriving Repr, DecidableEq

/-- The hostname encoded in a Backend svname: the part after the last
underscore (marathon_serviceinit.py line 181). -/
def backend_hostname (b : Backend) : String :=
  (splitOnChar '_' b.svname).getLastD ""

/-- The port encoded in a Backend svname: the part of the leading underscore
segment after the last colon (marathon_serviceinit.py line 182). -/
def backend_port (b : Backend) : String :=
  (splitOnChar ':' ((splitOnChar '_' b.svname).headD "")).getLastD ""

/-- Modelled from the spec: a Task matches a Backend when the Task's host
prefix before the first dot equals the hostname encoded in the Backend's
endpoint identity and one of the Task's ports equals the encoded port. -/
def matchesTask (b : Backend) (t : MTask) : Bool :=
  backend_hostname b == (splitOnChar '.' t.host).headD "" &&
    t.ports.any (fun p => toString p == backend_port b)

/-- Modelled from the spec: backend_is_up (from
paasta_tools.monitoring.replication_utils) holds when the Backend's status
is UP. -/
def backend_is_up (b : Backend) : Bool :=
  b.status == "UP"

/-- Modelled from the spec: match_backends_and_tasks (from
paasta_tools.monitoring.replication_utils) is not part of the source file.
Per the spec, each Backend in order is paired with the first
still-unmatched Task whose host:port encoding matches the Backend's
endpoint identity (task absent when no match), and afterwards one pair with
backend absent is emitted per unmatched Task, so every Backend and every
Task appears in exactly one pair. -/
def match_backends_and_tasks :
    List Backend → List MTask → List (Option Backend × Option MTask)
  | [], rem => rem.map (fun t => (none, some t))
  | b :: bs, rem =>
    match rem.find? (fun t => matchesTask b t) with
    | some t => (some b, some t) :: match_backends_and_tasks bs (rem.erase t)
    | none => (some b, none) :: match_backends_and_tasks bs rem

/-- The order underlying sorted(..., key=lambda backend: backend status,
reverse=True): a backend may be placed before another when the other's
status is lexicographically at most its own. -/
def backend_status_ge (a b : Backend) : Prop :=
  pyStrLe b.status a.status = true

instance : DecidableRel backend_status_ge :=
  fun a b => inferInstanceAs (Decidable (pyStrLe b.status a.status = true))

/-- Embeds the sort at marathon_serviceinit.py lines 255-259:
sorted(get_backends(...), key=lambda backend: backend status, reverse=True).
Python sorted is stable, so it is embedded as the stable insertion sort for
the descending status order. -/
def sort_backends_by_status (backends : List Backend) : List Backend :=
  backends.insertionSort backend_status_ge

/-- Pads a string on the right with spaces to the given width, as the Python
format specifier with a left-aligned minimum width does. -/
def padRight (s : String) (w : Nat) : String :=
  s ++ String.mk (List.replicate (w - s.length) ' ')

/-- Modelled from the spec: humanize.naturaltime is an external rendering
collaborator; it is modelled as a plain executable rendering of the
seconds count it is given. -/
def humanize_naturaltime_seconds (seconds : Nat) : String :=
  toString seconds ++ " seconds ago"

/-- Modelled from the spec: remove_ansi_escape_sequences (from
paasta_tools.utils) strips the colour codes the colour collaborator
introduces. -/
def remove_ansi_escape_sequences (s : String) : String :=
  ((((((((s.replace "\x1b[31m" "").replace "\x1b[32m" "").replace
    "\x1b[33m" "").replace "\x1b[36m" "").replace "\x1b[1m" "").replace
    "\x1b[38;5;242m" "").replace "\x1b[39m" "").replace "\x1b[0m" "")

/-- Embeds pretty_print_haproxy_backend (lines 174-203): renders one backend
row, coloured by status, full-brightness only for a correctly matched
instance. -/
def pretty_print_haproxy_backend (backend : Backend)
    (is_correct_instance : Bool) : String :=
  let pretty_backend_name := backend_hostname backend ++ ":" ++
    backend_port backend
  let status :=
    if backend.status == "UP" then PaastaColors.defaultColor backend.status
    else if backend.status == "DOWN" || backend.status == "MAINT" then
      PaastaColors.red backend.status
    else PaastaColors.yellow backend.status
  let lastcheck := backend.check_status ++ "/" ++ backend.check_code ++
    " in " ++ backend.check_duration ++ "ms"
  let lastchange := humanize_naturaltime_seconds backend.lastchg
  let status_text := "      " ++ padRight pretty_backend_name 32 ++
    padRight lastcheck 20 ++ padRight lastchange 16 ++ status
  if is_correct_instance then
    PaastaColors.color_text "\x1b[39m" status_text
  else
    PaastaColors.color_text "\x1b[38;5;242m"
      (remove_ansi_escape_sequences status_text)

/-- Embeds the per-location expected count at marathon_serviceinit.py line
250: int(expected_count / len(locations)), Python 2 floor division of
natural numbers.  It is only ever evaluated with a non-empty location list
(the caller guards the empty case). -/
def expected_count_per_location (expected_count num_locations : Nat) : Nat :=
  expected_count / num_locations

/-- The ascending lexicographic order on location keys used by
sorted(locations). -/
def location_key_le (a b : String × List String) : Prop :=
  pyStrLe a.1 b.1 = true

instance : DecidableRel location_key_le :=
  fun a b => inferInstanceAs (Decidable (pyStrLe a.1 b.1 = true))

/-- Embeds the iteration order sorted(locations) over the discovery
location dictionary: ascending lexicographic order of the location keys,
embedded as the stable insertion sort. -/
def sort_locations (locations : List (String × List String)) :
    List (String × List String) :=
  locations.insertionSort location_key_le

/-- Whether a matched pair counts toward the up backends of a location:
the backend side is present and its status is UP (the generator expression
at line 261). -/
def pair_counts_as_up (p : Option Backend × Option MTask) : Bool :=
  match p.1 with
  | some backend => backend_is_up backend
  | none => false

/-- The matched pairs computed for one location (lines 254-260): the
backends polled from the location's first host, sorted by descending
status, matched against the instance's tasks. -/
def location_matched_tasks (service_instance : String) (tasks : List MTask)
    (getBackends : String → String → List Backend)
    (location : String × List String) :
    List (Option Backend × Option MTask) :=
  let synapse_host := location.2.headD ""
  let sorted_backends :=
    sort_backends_by_status (getBackends service_instance synapse_host)
  match_backends_and_tasks sorted_backends tasks

/-- The running count for one location (line 261): the number of matched
pairs whose backend is present and UP. -/
def location_running_count (service_instance : String) (tasks : List MTask)
    (getBackends : String → String → List Backend)
    (location : String × List String) : Nat :=
  (location_matched_tasks service_instance tasks getBackends
    location).countP pair_counts_as_up

/-- The per-location replication report line (lines 262-263). -/
def location_report_line (service_instance : String) (tasks : List MTask)
    (getBackends : String → String → List Backend) (e : Nat)
    (location : String × List String) : String :=
  "    " ++ location.1 ++ " - " ++ haproxy_backend_report e
    (location_running_count service_instance tasks getBackends location)

/-- Embeds pretty_print_smartstack_backends_for_locations (lines 245-270).
The discovery/load-balancer query get_backends is passed as the parameter
getBackends, applied to the first host of each location. -/
def pretty_print_smartstack_backends_for_locations (service_instance : String)
    (tasks : List MTask) (locations : List (String × List String))
    (expected_count : Nat) (verbose : Bool)
    (getBackends : String → String → List Backend) : List String :=
  let e := expected_count_per_location expected_count locations.length
  (sort_locations locations).flatMap (fun location =>
    location_report_line service_instance tasks getBackends e location ::
      (if verbose then
        (location_matched_tasks service_instance tasks getBackends
          location).filterMap (fun p => match p.1 with
            | some backend =>
              some (pretty_print_haproxy_backend backend p.2.isSome)
            | none => none)
      else []))

/-- Embeds status_smartstack_backends (lines 206-242).  The collaborator
query results (nerve namespace, discovery locations grouped by attribute,
get_backends) are passed as parameters; the output is the list of report
lines that the source joins with newlines. -/
def status_smartstack_backends (service instanceName nerve_ns : String)
    (locations : List (String × List String))
    (getBackends : String → String → List Backend) (tasks : List MTask)
    (expected_count : Nat) (verbose : Bool) : List String :=
  let service_instance := compose_job_id service nerve_ns
  let ns_lines : List String :=
    if instanceName ≠ nerve_ns then
      ["Smartstack: N/A - " ++ instanceName ++ " is announced in the " ++
       PaastaColors.bold nerve_ns ++ " namespace."]
    else []
  if instanceName ≠ nerve_ns ∧ ¬ verbose then
    ns_lines
  else
    ns_lines ++
      (if locations.length = 0 then
        ["Smartstack: ERROR - " ++ service_instance ++
         " is NOT in smartstack at all!"]
      else
        ["Smartstack:"] ++
          (if verbose then
            ["  Haproxy Service Name: " ++ service_instance,
             "  Backends: Name                      LastCheck           LastChange      Status"]
          else []) ++
          pretty_print_smartstack_backends_for_locations service_instance
            tasks locations expected_count verbose getBackends)

/-- Python 2 round: round-half-away-from-zero to an integer. -/
def pyRound (q : ℚ) : ℤ :=
  if q ≥ 0 then ⌊q + 1 / 2⌋ else -⌊-q + 1 / 2⌋

/-- Python int()/%d truncation of a rational toward zero. -/
def pyTruncInt (q : ℚ) : ℤ :=
  if q < 0 then ⌈q⌉ else ⌊q⌋

/-- The uncaught Python exception that can escape the CPU metric: indexing
the first element of an empty status list. -/
inductive PyError where
  | indexError
deriving Repr, DecidableEq

/-- The view of a mesos task consumed by get_cpu_usage.  The degraded-data
faults become explicit flags: timed_out is the bounded sample exceeding its
deadline (TimeoutError), record_absent is the execution-layer record being
absent at the task attribute accesses (AttributeError or SlaveDoesNotExist).
statuses holds the status timestamps; current_time is the sampled clock. -/
structure CpuUsageTask where
  timed_out : Bool
  record_absent : Bool
  statuses : List ℚ
  current_time : ℤ
  cpu_limit : ℚ
  cpus_system_time_secs : ℚ
  cpus_user_time_secs : ℚ
deriving Repr, DecidableEq

/-- Embeds get_cpu_usage (lines 273-305).  The except clauses catch only
AttributeError, SlaveDoesNotExist and TimeoutError; the subscript
statuses[0] raises an uncaught IndexError when the status list is empty. -/
def get_cpu_usage (task : CpuUsageTask) : Except PyError String :=
  if task.timed_out then .ok "Timed Out"
  else
    match task.statuses with
    | [] => .error .indexError
    | ts :: _ =>
      if task.record_absent then .ok "None"
      else
        let start_time : ℤ := pyRound ts
        let duration_seconds : ℚ := (task.current_time : ℚ) - (start_time : ℚ)
        let cpu_shares : ℚ := task.cpu_limit - 1 / 10
        let allocated_seconds : ℚ := duration_seconds * cpu_shares
        let used_seconds : ℚ :=
          task.cpus_system_time_secs + task.cpus_user_time_secs
        if allocated_seconds = 0 then .ok "Undef"
        else
          let percent : ℚ :=
            (pyRound (10 * (100 * (used_seconds / allocated_seconds))) : ℚ) / 10
          let percent_string := toString percent ++ "%"
          if percent > 90 then .ok (PaastaColors.red percent_string)
          else .ok percent_string

/-- The view of a mesos task consumed by get_mem_usage, with the same
degraded-data fault flags as the CPU metric. -/
structure MemUsageTask where
  timed_out : Bool
  record_absent : Bool
  mem_limit : ℚ
  rss : ℚ
deriving Repr, DecidableEq

/-- Embeds get_mem_usage (lines 308-324).  Every access is covered by the
except clauses, so the memory metric is total. -/
def get_mem_usage (task : MemUsageTask) : String :=
  if task.timed_out then "Timed Out"
  else if task.record_absent then "None"
  else if task.mem_limit = 0 then "Undef"
  else
    let mem_percent : ℚ := task.rss / task.mem_limit * 100
    let mem_string :=
      toString (pyTruncInt (task.rss / 1024 / 1024)) ++ "/" ++
        toString (pyTruncInt (task.mem_limit / 1024 / 1024)) ++ "MB"
    if mem_percent > 90 then PaastaColors.red mem_string
    else mem_string

/-- An observable side effect of the state-changing operations: one audit
log event or one orchestrator scale call. -/
inductive Effect where
  | logEvent (service_name line component level cluster instanceName : String)
  | scaleApp (app_id : String) (instances : Nat) (force : Bool)
deriving Repr, DecidableEq

/-- Whether an effect is an orchestrator scale call. -/
def is_scale_call : Effect → Bool
  | .scaleApp _ _ _ => true
  | _ => false

/-- The orchestrator scale calls within an effect trace. -/
def scale_calls (es : List Effect) : List Effect :=
  es.filter is_scale_call

/-- Embeds start_marathon_job (lines 36-46) as its effect trace: one audit
log event, then one scale call to normal_instance_count with force
(scale_app returns nothing in this embedding, so its return value is never
inspected). -/
def start_marathon_job (service instanceName app_id : String)
    (normal_instance_count : Nat) (cluster : String) : List Effect :=
  let name := PaastaColors.cyan (compose_job_id service instanceName)
  [Effect.logEvent service
    ("EmergencyStart: scaling " ++ name ++ " up to " ++
     toString normal_instance_count ++ " instances")
    "deploy" "event" cluster instanceName,
   Effect.scaleApp app_id normal_instance_count true]

/-- Embeds stop_marathon_job (lines 49-59) as its effect trace: one audit
log event, then one scale call to 0 instances with force. -/
def stop_marathon_job (service instanceName app_id : String)
    (cluster : String) : List Effect :=
  let name := PaastaColors.cyan (compose_job_id service instanceName)
  [Effect.logEvent service
    ("EmergencyStop: Scaling " ++ name ++ " down to 0 instances")
    "deploy" "event" cluster instanceName,
   Effect.scaleApp app_id 0 true]

/-- Embeds restart_marathon_job (lines 62-64): the stop trace followed
sequentially by the start trace. -/
def restart_marathon_job (service instanceName app_id : String)
    (normal_instance_count : Nat) (cluster : String) : List Effect :=
  stop_marathon_job service instanceName app_id cluster ++
    start_marathon_job service instanceName app_id normal_instance_count
      cluster

/-- The outcome of perform_command: a unix-style return code, or the
NotImplementedError raised for an unrecognized command. -/
inductive PerformResult where
  | exit (code : Nat)
  | notImplementedError (msg : String)
deriving Repr, DecidableEq

/-- Embeds perform_command (lines 423-479).  Whether
create_complete_config resolves the docker image becomes the
has_docker_image flag (a false flag is the NoDockerImageError path), and
the text printed by the status branch becomes the status_output parameter.
The result carries the printed lines and the orchestrator effect trace. -/
def perform_command (command service instanceName app_id : String)
    (has_docker_image : Bool) (normal_instance_count : Nat) (cluster : String)
    (status_output : List String) :
    PerformResult × List String × List Effect :=
  if ¬ has_docker_image then
    let job_name := compose_job_id service instanceName
    (.exit 1,
     ["Docker image for " ++ job_name ++
      " not in deployments.json. Exiting. Has Jenkins deployed it?"],
     [])
  else if command = "start" then
    (.exit 0, [],
     start_marathon_job service instanceName app_id normal_instance_count
       cluster)
  else if command = "stop" then
    (.exit 0, [], stop_marathon_job service instanceName app_id cluster)
  else if command = "restart" then
    (.exit 0, [],
     restart_marathon_job service instanceName app_id normal_instance_count
       cluster)
  else if command = "status" then
    (.exit 0, status_output, [])
  else
    (.notImplementedError ("Command " ++ command ++ " is not implemented!"),
     [], [])

/-- C1 (counterexample): at (running_count, desired_count) = (0, 0) both
task-state classifiers take the running >= desired branch first, so the tie
yields Healthy — not the Critical the claim asserts for running_count == 0
regardless of desired_count. -/
theorem task_state_classifier_tie_zero_zero :
    (mesos_tasks_status_pair 0 0).1 = PaastaColors.green "Healthy" ∧
    (marathon_job_status_pair 0 0).1 = PaastaColors.green "Healthy" ∧
    PaastaColors.green "Healthy" ≠ PaastaColors.red "Critical" ∧
    PaastaColors.green "Healthy" ≠ PaastaColors.yellow "Critical" :=
  ⟨rfl, rfl, by decide, by decide⟩

/-- C1 (amended): the task state classifiers of status_mesos_tasks and
status_marathon_job yield Healthy when running_count >= desired_count
(including the tie at (0, 0), resolved by checking the >= branch first),
Critical when running_count == 0 < desired_count, and Warning when
0 < running_count < desired_count; those three conditions form a strict
partition of all (running, desired) pairs with no overlap. -/
theorem task_state_classifier_partition (running desired : Nat) :
    (desired ≤ running →
      (mesos_tasks_status_pair running desired).1 =
        PaastaColors.green "Healthy" ∧
      (marathon_job_status_pair running desired).1 =
        PaastaColors.green "Healthy") ∧
    (running = 0 → 0 < desired →
      (mesos_tasks_status_pair running desired).1 =
        PaastaColors.red "Critical" ∧
      (marathon_job_status_pair running desired).1 =
        PaastaColors.yellow "Critical") ∧
    (0 < running → running < desired →
      (mesos_tasks_status_pair running desired).1 =
        PaastaColors.yellow "Warning" ∧
      (marathon_job_status_pair running desired).1 =
        PaastaColors.yellow "Warning") ∧
    (desired ≤ running ∨ (running = 0 ∧ 0 < desired) ∨
      (0 < running ∧ running < desired)) ∧
    ¬ (desired ≤ running ∧ running = 0 ∧ 0 < desired) ∧
    ¬ (desired ≤ running ∧ 0 < running ∧ running < desired) ∧
    ¬ ((running = 0 ∧ 0 < desired) ∧ 0 < running ∧ running < desired) := by
  refine ⟨?_, ?_, ?_, by omega, by omega, by omega, by omega⟩
  · intro h
    simp only [mesos_tasks_status_pair, marathon_job_status_pair]
    rw [if_pos (show running ≥ desired from h),
      if_pos (show running ≥ desired from h)]
    exact ⟨rfl, rfl⟩
  · intro h0 hd
    simp only [mesos_tasks_status_pair, marathon_job_status_pair]
    rw [if_neg (by omega), if_pos h0, if_neg (by omega), if_pos h0]
    exact ⟨rfl, rfl⟩
  · intro hr hd
    simp only [mesos_tasks_status_pair, marathon_job_status_pair]
    rw [if_neg (by omega), if_neg (by omega), if_neg (by omega),
      if_neg (by omega)]
    exact ⟨rfl, rfl⟩

/-- C1 (witness): the amended partition applied at the concrete pair
(running, desired) = (0, 2), which the source classifies as Critical. -/
theorem task_state_classifier_partition_witness :
    (0 : Nat) = 0 ∧ 0 < 2 ∧
    (mesos_tasks_status_pair 0 2).1 = PaastaColors.red "Critical" ∧
    (marathon_job_status_pair 0 2).1 = PaastaColors.yellow "Critical" :=
  ⟨rfl, by decide,
    ((task_state_classifier_partition 0 2).2.1 rfl (by decide)).1,
    ((task_state_classifier_partition 0 2).2.1 rfl (by decide)).2⟩

/-- C2: get_bouncing_status maps a DeployableUnit count of 0 to Stopped, 1
to Running and every count above 1 to Bouncing with the bounce method; the
final equation shows the function equals the three-branch classifier with
the defensive Unknown branch removed, so that branch is dead code for every
natural-number count. -/
theorem bouncing_status_trichotomy (n : Nat) (bounce_method : String) :
    (n = 0 → get_bouncing_status n bounce_method = PaastaColors.red "Stopped") ∧
    (n = 1 →
      get_bouncing_status n bounce_method = PaastaColors.green "Running") ∧
    (1 < n → get_bouncing_status n bounce_method =
      PaastaColors.yellow ("Bouncing (" ++ bounce_method ++ ")")) ∧
    get_bouncing_status n bounce_method =
      (if n = 0 then PaastaColors.red "Stopped"
       else if n = 1 then PaastaColors.green "Running"
       else PaastaColors.yellow ("Bouncing (" ++ bounce_method ++ ")")) := by
  refine ⟨?_, ?_, ?_, ?_⟩
  · intro h
    simp [get_bouncing_status, h]
  · intro h
    simp [get_bouncing_status, h]
  · intro h
    simp only [get_bouncing_status]
    rw [if_neg (by omega), if_neg (by omega), if_pos h]
  · by_cases h0 : n = 0
    · simp [get_bouncing_status, h0]
    · by_cases h1 : n = 1
      · simp [get_bouncing_status, h0, h1]
      · simp only [get_bouncing_status]
        rw [if_neg h0, if_neg h0, if_neg h1, if_neg h1, if_pos (by omega)]

/-- C2 (witness): the trichotomy applied at the concrete count 2 with bounce
method brutal, which the source reports as Bouncing. -/
theorem bouncing_status_trichotomy_witness :
    1 < 2 ∧ get_bouncing_status 2 "brutal" =
      PaastaColors.yellow ("Bouncing (" ++ "brutal" ++ ")") :=
  ⟨by decide, (bouncing_status_trichotomy 2 "brutal").2.2.1 (by decide)⟩

/-- C3: for expected_count > 0 the replication ratio computed by the
classifier is up_count / expected_count x 100 rounded to an integer, and
haproxy_backend_report renders the Critical line with (up/expected, ratio%)
exactly when that ratio is below the fixed threshold 50, and the Healthy
line with (up/expected) otherwise. -/
theorem haproxy_backend_report_threshold (up expected : Nat)
    (h : 0 < expected) :
    (((is_under_replicated up expected 50).2 : ℤ) =
      round ((up * 100 : ℚ) / expected)) ∧
    ((is_under_replicated up expected 50).2 < 50 →
      haproxy_backend_report expected up =
        PaastaColors.red "Critical" ++ " - in haproxy with " ++
        PaastaColors.red
          ("(" ++ toString up ++ "/" ++ toString expected ++ ", " ++
           toString (is_under_replicated up expected 50).2 ++ "%)") ++
        " total backends " ++ PaastaColors.bold "UP" ++
        " in this namespace.") ∧
    (¬ (is_under_replicated up expected 50).2 < 50 →
      haproxy_backend_report expected up =
        PaastaColors.green "Healthy" ++ " - in haproxy with " ++
        PaastaColors.green
          ("(" ++ toString up ++ "/" ++ toString expected ++ ")") ++
        " total backends " ++ PaastaColors.bold "UP" ++
        " in this namespace.") := by
  have hne : expected ≠ 0 := by omega
  have hval : (is_under_replicated up expected 50).2 =
      (200 * up + expected) / (2 * expected) := by
    simp [is_under_replicated, hne]
  refine ⟨?_, ?_, ?_⟩
  · rw [hval, round_eq]
    have he : (expected : ℚ) ≠ 0 := by positivity
    have key : ((up : ℚ) * 100) / expected + 1 / 2 =
        ((200 * up + expected : ℕ) : ℚ) / ((2 * expected : ℕ) : ℚ) := by
      push_cast
      field_simp
      ring
    rw [key, Rat.floor_natCast_div_natCast, ← Int.natCast_div]
  · intro hlt
    rw [hval] at hlt
    simp [haproxy_backend_report, is_under_replicated, hne, hlt]
  · intro hge
    rw [hval] at hge
    simp [haproxy_backend_report, is_under_replicated, hne, hge]

/-- C3 (witness): the threshold characterization applied at the concrete
pairs from the spec — expected 10 with 3 up gives ratio 30 and the Critical
line, and expected 10 with 6 up gives ratio 60 and the Healthy line. -/
theorem haproxy_backend_report_threshold_witness :
    0 < 10 ∧
    (is_under_replicated 3 10 50).2 = 30 ∧
    (is_under_replicated 6 10 50).2 = 60 ∧
    haproxy_backend_report 10 3 =
      PaastaColors.red "Critical" ++ " - in haproxy with " ++
      PaastaColors.red
        ("(" ++ toString 3 ++ "/" ++ toString 10 ++ ", " ++
         toString (is_under_replicated 3 10 50).2 ++ "%)") ++
      " total backends " ++ PaastaColors.bold "UP" ++
      " in this namespace." ∧
    haproxy_backend_report 10 6 =
      PaastaColors.green "Healthy" ++ " - in haproxy with " ++
      PaastaColors.green
        ("(" ++ toString 6 ++ "/" ++ toString 10 ++ ")") ++
      " total backends " ++ PaastaColors.bold "UP" ++
      " in this namespace." :=
  ⟨by decide, by decide, by decide,
    (haproxy_backend_report_threshold 3 10 (by decide)).2.1 (by decide),
    (haproxy_backend_report_threshold 6 10 (by decide)).2.2 (by decide)⟩

/-- Reflexivity of the Python lexicographic string order. -/
theorem pyStrLeList_refl : ∀ as : List Char, pyStrLeList as as = true := by
  intro as
  induction as with
  | nil => rfl
  | cons a as ih => simp [pyStrLeList, lt_irrefl, ih]

/-- Totality of the Python lexicographic string order. -/
theorem pyStrLeList_total :
    ∀ as bs : List Char, pyStrLeList as bs = true ∨ pyStrLeList bs as = true := by
  intro as
  induction as with
  | nil => intro bs; left; rfl
  | cons a as ih =>
    intro bs
    cases bs with
    | nil => right; rfl
    | cons b bs =>
      rcases lt_trichotomy a b with hab | hab | hab
      · left; simp [pyStrLeList, hab]
      · subst hab
        rcases ih bs with h | h
        · left; simp [pyStrLeList, lt_irrefl, h]
        · right; simp [pyStrLeList, lt_irrefl, h]
      · right; simp [pyStrLeList, hab]

/-- Transitivity of the Python lexicographic string order. -/
theorem pyStrLeList_trans :
    ∀ as bs cs : List Char, pyStrLeList as bs = true →
      pyStrLeList bs cs = true → pyStrLeList as cs = true := by
  intro as
  induction as with
  | nil => intro bs cs h1 h2; rfl
  | cons a as ih =>
    intro bs cs h1 h2
    cases bs with
    | nil => simp [pyStrLeList] at h1
    | cons b bs =>
      cases cs with
      | nil => simp [pyStrLeList] at h2
      | cons c cs =>
        rcases lt_trichotomy a b with hab | hab | hab
        · rcases lt_trichotomy b c with hbc | hbc | hbc
          · have hac : a < c := lt_trans hab hbc
            simp [pyStrLeList, hac]
          · subst hbc
            simp [pyStrLeList, hab]
          · simp [pyStrLeList, lt_asymm hbc, hbc] at h2
        · subst hab
          simp [pyStrLeList, lt_irrefl] at h1
          rcases lt_trichotomy a c with hac | hac | hac
          · simp [pyStrLeList, hac]
          · subst hac
            simp [pyStrLeList, lt_irrefl] at h2 ⊢
            exact ih bs cs h1 h2
          · simp [pyStrLeList, lt_asymm hac, hac] at h2
        · simp [pyStrLeList, lt_asymm hab, hab] at h1

/-- C5: in the Backend-Task matcher, every input Backend and every input
Task appears in exactly one output MatchedPair: the backend sides of the
pairs are exactly the input Backends in order, the task sides are a
permutation of the input Tasks, and consequently the number of pairs with
the backend side present equals the number of Backends and the number of
pairs with the task side present equals the number of Tasks. -/
theorem match_backends_and_tasks_partition (backends : List Backend)
    (tasks : List MTask) :
    (match_backends_and_tasks backends tasks).filterMap Prod.fst = backends ∧
    ((match_backends_and_tasks backends tasks).filterMap Prod.snd).Perm tasks ∧
    (match_backends_and_tasks backends tasks).countP (fun p => p.1.isSome) =
      backends.length ∧
    (match_backends_and_tasks backends tasks).countP (fun p => p.2.isSome) =
      tasks.length := by
  induction backends generalizing tasks with
  | nil =>
    refine ⟨?_, ?_, ?_, ?_⟩ <;>
      simp [match_backends_and_tasks, List.filterMap_map, Function.comp_def,
        List.countP_map, List.countP_true, List.filterMap_some]
  | cons b bs ih =>
    cases hfind : tasks.find? (fun t => matchesTask b t) with
    | none =>
      obtain ⟨h1, h2, h3, h4⟩ := ih tasks
      refine ⟨?_, ?_, ?_, ?_⟩ <;>
        simp [match_backends_and_tasks, hfind, List.filterMap_cons, h1, h2,
          h3, h4, List.countP_cons]
    | some t =>
      have hmem : t ∈ tasks := List.mem_of_find?_eq_some hfind
      obtain ⟨h1, h2, h3, h4⟩ := ih (tasks.erase t)
      have hlen : (tasks.erase t).length = tasks.length - 1 :=
        List.length_erase_of_mem hmem
      have hpos : 0 < tasks.length := List.length_pos_of_mem hmem
      refine ⟨?_, ?_, ?_, ?_⟩
      · simp [match_backends_and_tasks, hfind, List.filterMap_cons, h1]
      · simp only [match_backends_and_tasks, hfind, List.filterMap_cons,
          Option.some.injEq]
        exact (h2.cons t).trans (List.perm_cons_erase hmem).symm
      · simp [match_backends_and_tasks, hfind, List.countP_cons, h3]
      · simp only [match_backends_and_tasks, hfind, List.countP_cons, h4]
        simp only [Option.isSome_some, if_true]
        omega

/-- C6 (counterexample): the sort placed before matching is a plain
descending lexicographic sort on the status string, so a Backend whose
status (here the real haproxy status string no-check) is lexicographically
greater than UP is placed before an UP Backend, contradicting the claim
that every UP Backend precedes every non-UP Backend. -/
theorem backend_sort_non_up_before_up :
    sort_backends_by_status
      [⟨"10.0.0.1:31000_host1", "UP", "L7OK", "200", "2", 30⟩,
       ⟨"10.0.0.2:31000_host2", "no check", "L4OK", "200", "2", 30⟩] =
      [⟨"10.0.0.2:31000_host2", "no check", "L4OK", "200", "2", 30⟩,
       ⟨"10.0.0.1:31000_host1", "UP", "L7OK", "200", "2", 30⟩] ∧
    ("no check" : String) ≠ "UP" :=
  ⟨by decide, by decide⟩

/-- C6 (amended): the sort placed before matching is the stable descending
lexicographic sort on the status string: the output is a permutation of the
input, sorted so that lexicographically larger statuses come first, and
Backends with equal status keep their original relative order; in
particular, when every status is UP, MAINT or DOWN, every UP Backend is
placed before every non-UP Backend (a status lexicographically greater than
UP would instead sort before UP). -/
theorem backend_sort_desc_stable (backends : List Backend) :
    (sort_backends_by_status backends).Perm backends ∧
    List.Sorted backend_status_ge (sort_backends_by_status backends) ∧
    (∀ s : String, (sort_backends_by_status backends).filter
        (fun b => b.status == s) =
      backends.filter (fun b => b.status == s)) ∧
    ((∀ b ∈ backends,
        b.status = "UP" ∨ b.status = "MAINT" ∨ b.status = "DOWN") →
      (sort_backends_by_status backends).Pairwise
        (fun a b => b.status = "UP" → a.status = "UP")) := by
  haveI htot : IsTotal Backend backend_status_ge :=
    ⟨fun a b => pyStrLeList_total b.status.data a.status.data⟩
  haveI htrans : IsTrans Backend backend_status_ge :=
    ⟨fun a b c hab hbc =>
      pyStrLeList_trans c.status.data b.status.data a.status.data hbc hab⟩
  refine ⟨List.perm_insertionSort _ _, List.sorted_insertionSort _ _, ?_, ?_⟩
  · intro s
    have hpw : (backends.filter (fun b => b.status == s)).Pairwise
        backend_status_ge := by
      apply List.pairwise_of_forall_mem_list
      intro a ha b hb
      have has : a.status = s := by
        simpa using (List.mem_filter.mp ha).2
      have hbs : b.status = s := by
        simpa using (List.mem_filter.mp hb).2
      show pyStrLe b.status a.status = true
      rw [has, hbs]
      exact pyStrLeList_refl s.data
    have hsub : List.Sublist (backends.filter (fun b => b.status == s))
        (sort_backends_by_status backends) :=
      List.sublist_insertionSort hpw (List.filter_sublist backends)
    have hsub2 : List.Sublist (backends.filter (fun b => b.status == s))
        ((sort_backends_by_status backends).filter
          (fun b => b.status == s)) := by
      have h := List.Sublist.filter (fun b => b.status == s) hsub
      simpa [List.filter_filter] using h
    have hperm : ((sort_backends_by_status backends).filter
        (fun b => b.status == s)).Perm
        (backends.filter (fun b => b.status == s)) :=
      (List.perm_insertionSort _ _).filter _
    exact (hsub2.eq_of_length hperm.length_eq.symm).symm
  · intro hall
    have hsorted := List.sorted_insertionSort backend_status_ge backends
    refine List.Pairwise.imp_of_mem ?_ hsorted
    intro a b ha hb hr hbUP
    have ha' : a ∈ backends :=
      ((List.perm_insertionSort backend_status_ge backends).mem_iff).mp ha
    have hr' : pyStrLe b.status a.status = true := hr
    rcases hall a ha' with h | h | h
    · exact h
    · rw [h, hbUP] at hr'
      exact absurd hr' (by decide)
    · rw [h, hbUP] at hr'
      exact absurd hr' (by decide)

/-- C6 (witness): the amended sorting statement applied to the spec's
example statuses [DOWN, UP, MAINT, UP]: every UP Backend precedes every
non-UP Backend in the sorted output, and the concrete output keeps the two
UP Backends in their original relative order. -/
theorem backend_sort_desc_stable_witness :
    List.Pairwise (fun a b => b.status = "UP" → a.status = "UP")
      (sort_backends_by_status
        [⟨"s1", "DOWN", "L4TOUT", "", "2", 30⟩,
         ⟨"s2", "UP", "L7OK", "200", "2", 30⟩,
         ⟨"s3", "MAINT", "L7OK", "200", "2", 30⟩,
         ⟨"s4", "UP", "L7OK", "200", "2", 30⟩]) ∧
    sort_backends_by_status
        [⟨"s1", "DOWN", "L4TOUT", "", "2", 30⟩,
         ⟨"s2", "UP", "L7OK", "200", "2", 30⟩,
         ⟨"s3", "MAINT", "L7OK", "200", "2", 30⟩,
         ⟨"s4", "UP", "L7OK", "200", "2", 30⟩] =
      [⟨"s2", "UP", "L7OK", "200", "2", 30⟩,
       ⟨"s4", "UP", "L7OK", "200", "2", 30⟩,
       ⟨"s3", "MAINT", "L7OK", "200", "2", 30⟩,
       ⟨"s1", "DOWN", "L4TOUT", "", "2", 30⟩] :=
  ⟨(backend_sort_desc_stable
      [⟨"s1", "DOWN", "L4TOUT", "", "2", 30⟩,
       ⟨"s2", "UP", "L7OK", "200", "2", 30⟩,
       ⟨"s3", "MAINT", "L7OK", "200", "2", 30⟩,
       ⟨"s4", "UP", "L7OK", "200", "2", 30⟩]).2.2.2 (by decide),
   by decide⟩

/-- C4 (counterexample): the CPU metric can propagate an error out of the
metric computation — for a task whose status list is empty (and no other
fault), the subscript into the status list raises an IndexError that the
except clauses (AttributeError, SlaveDoesNotExist, TimeoutError) do not
catch, so no sentinel or percentage is returned. -/
theorem cpu_usage_empty_statuses_raises :
    get_cpu_usage ⟨false, false, [], 0, 1, 0, 0⟩ =
      Except.error PyError.indexError :=
  rfl

/-- C4 (amended): the memory metric always returns exactly one of a
percentage rendering or the three sentinels, and the CPU metric does so for
every task whose status list is non-empty (on an empty status list it
instead propagates an uncaught IndexError); in particular a timed-out
sample yields the Timed Out sentinel, an absent execution-layer record
yields None, and a zero denominator (allocated cpu seconds, respectively
memory limit) yields Undef. -/
theorem telemetry_sentinel_policy (ct : CpuUsageTask) (mt : MemUsageTask) :
    (ct.timed_out = true → get_cpu_usage ct = Except.ok "Timed Out") ∧
    (ct.timed_out = false → ct.record_absent = true → ct.statuses ≠ [] →
      get_cpu_usage ct = Except.ok "None") ∧
    (ct.timed_out = false → ct.record_absent = false →
      ∀ ts l, ct.statuses = ts :: l →
      ((ct.current_time : ℚ) - ((pyRound ts : ℤ) : ℚ)) *
          (ct.cpu_limit - 1 / 10) = 0 →
      get_cpu_usage ct = Except.ok "Undef") ∧
    (ct.statuses ≠ [] →
      ∃ s, get_cpu_usage ct = Except.ok s ∧
        (s = "Timed Out" ∨ s = "None" ∨ s = "Undef" ∨
          ∃ q : ℚ, s = toString q ++ "%" ∨
            s = PaastaColors.red (toString q ++ "%"))) ∧
    (mt.timed_out = true → get_mem_usage mt = "Timed Out") ∧
    (mt.timed_out = false → mt.record_absent = true →
      get_mem_usage mt = "None") ∧
    (mt.timed_out = false → mt.record_absent = false → mt.mem_limit = 0 →
      get_mem_usage mt = "Undef") ∧
    (get_mem_usage mt = "Timed Out" ∨ get_mem_usage mt = "None" ∨
      get_mem_usage mt = "Undef" ∨
      ∃ a b : ℤ,
        get_mem_usage mt = toString a ++ "/" ++ toString b ++ "MB" ∨
        get_mem_usage mt =
          PaastaColors.red (toString a ++ "/" ++ toString b ++ "MB")) := by
  refine ⟨?_, ?_, ?_, ?_, ?_, ?_, ?_, ?_⟩
  · intro h
    simp [get_cpu_usage, h]
  · intro h1 h2 h3
    cases hs : ct.statuses with
    | nil => exact absurd hs h3
    | cons ts l => simp [get_cpu_usage, h1, h2, hs]
  · intro h1 h2 ts l hs hz
    simp only [get_cpu_usage, h1, h2, hs, Bool.false_eq_true, if_false]
    rw [if_pos hz]
  · intro h3
    cases ht : ct.timed_out with
    | true => exact ⟨"Timed Out", by simp [get_cpu_usage, ht], Or.inl rfl⟩
    | false =>
      cases hs : ct.statuses with
      | nil => exact absurd hs h3
      | cons ts l =>
        cases hr : ct.record_absent with
        | true =>
          exact ⟨"None", by simp [get_cpu_usage, ht, hs, hr],
            Or.inr (Or.inl rfl)⟩
        | false =>
          simp only [get_cpu_usage, ht, hs, hr, Bool.false_eq_true, if_false]
          split_ifs with hz hp
          · exact ⟨"Undef", rfl, Or.inr (Or.inr (Or.inl rfl))⟩
          · exact ⟨_, rfl, Or.inr (Or.inr (Or.inr ⟨_, Or.inr rfl⟩))⟩
          · exact ⟨_, rfl, Or.inr (Or.inr (Or.inr ⟨_, Or.inl rfl⟩))⟩
  · intro h
    simp [get_mem_usage, h]
  · intro h1 h2
    simp [get_mem_usage, h1, h2]
  · intro h1 h2 h3
    simp [get_mem_usage, h1, h2, h3]
  · cases ht : mt.timed_out with
    | true => exact Or.inl (by simp [get_mem_usage, ht])
    | false =>
      cases hr : mt.record_absent with
      | true => exact Or.inr (Or.inl (by simp [get_mem_usage, ht, hr]))
      | false =>
        simp only [get_mem_usage, ht, hr, Bool.false_eq_true, if_false]
        split_ifs with h0 hp
        · exact Or.inr (Or.inr (Or.inl rfl))
        · exact Or.inr (Or.inr (Or.inr ⟨_, _, Or.inr rfl⟩))
        · exact Or.inr (Or.inr (Or.inr ⟨_, _, Or.inl rfl⟩))

/-- C4 (witness): the amended degradation policy applied to concrete tasks:
a timed-out CPU sample yields the Timed Out sentinel, an absent memory
record yields None, and a zero memory limit yields Undef. -/
theorem telemetry_sentinel_policy_witness :
    get_cpu_usage ⟨true, false, [0], 0, 1, 0, 0⟩ = Except.ok "Timed Out" ∧
    get_mem_usage ⟨false, true, 0, 0⟩ = "None" ∧
    get_mem_usage ⟨false, false, 0, 0⟩ = "Undef" :=
  ⟨(telemetry_sentinel_policy ⟨true, false, [0], 0, 1, 0, 0⟩
      ⟨false, true, 0, 0⟩).1 rfl,
   (telemetry_sentinel_policy ⟨true, false, [0], 0, 1, 0, 0⟩
      ⟨false, true, 0, 0⟩).2.2.2.2.2.1 rfl rfl,
   (telemetry_sentinel_policy ⟨true, false, [0], 0, 1, 0, 0⟩
      ⟨false, false, 0, 0⟩).2.2.2.2.2.2.1 rfl rfl rfl⟩

/-- C7: start issues exactly one orchestrator scale call, to the normal
instance count with force; stop issues exactly one scale call, to 0 with
force; restart is exactly the stop trace followed sequentially by the start
trace, so its scale calls are the stop call immediately followed by the
start call with nothing in between. -/
theorem state_changing_operations_scale_calls
    (service instanceName app_id cluster : String)
    (normal_instance_count : Nat) :
    scale_calls (start_marathon_job service instanceName app_id
        normal_instance_count cluster) =
      [Effect.scaleApp app_id normal_instance_count true] ∧
    scale_calls (stop_marathon_job service instanceName app_id cluster) =
      [Effect.scaleApp app_id 0 true] ∧
    restart_marathon_job service instanceName app_id normal_instance_count
        cluster =
      stop_marathon_job service instanceName app_id cluster ++
        start_marathon_job service instanceName app_id normal_instance_count
          cluster ∧
    scale_calls (restart_marathon_job service instanceName app_id
        normal_instance_count cluster) =
      [Effect.scaleApp app_id 0 true,
       Effect.scaleApp app_id normal_instance_count true] :=
  ⟨rfl, rfl, rfl, rfl⟩

/-- C8: perform_command returns exit code 1 exactly on the missing
deployable-artifact path, printing a message that names the
service.instance pair and hints at the missing pipeline step; with the
artifact resolved it returns exit code 0 for each of start, stop, restart
and status, and raises NotImplementedError for any other command name. -/
theorem perform_command_dispatch
    (command service instanceName app_id cluster : String)
    (has_docker_image : Bool) (normal_instance_count : Nat)
    (status_output : List String) :
    (has_docker_image = false →
      perform_command command service instanceName app_id has_docker_image
          normal_instance_count cluster status_output =
        (PerformResult.exit 1,
         ["Docker image for " ++ compose_job_id service instanceName ++
          " not in deployments.json. Exiting. Has Jenkins deployed it?"],
         [])) ∧
    (has_docker_image = true →
      (command = "start" ∨ command = "stop" ∨ command = "restart" ∨
        command = "status") →
      (perform_command command service instanceName app_id has_docker_image
          normal_instance_count cluster status_output).1 =
        PerformResult.exit 0) ∧
    (has_docker_image = true → command ≠ "start" → command ≠ "stop" →
      command ≠ "restart" → command ≠ "status" →
      (perform_command command service instanceName app_id has_docker_image
          normal_instance_count cluster status_output).1 =
        PerformResult.notImplementedError
          ("Command " ++ command ++ " is not implemented!")) := by
  refine ⟨?_, ?_, ?_⟩
  · intro h
    subst h
    simp [perform_command]
  · intro h hc
    subst h
    rcases hc with hc | hc | hc | hc <;> subst hc <;> simp [perform_command]
  · intro h h1 h2 h3 h4
    subst h
    simp [perform_command, h1, h2, h3, h4]

/-- C8 (witness): the dispatch contract applied at concrete inputs — a
missing artifact exits 1 with the message naming svc.main, a resolved start
exits 0, and the unrecognized command purge raises NotImplementedError. -/
theorem perform_command_dispatch_witness :
    perform_command "status" "svc" "main" "app" false 3 "cl" ["x"] =
      (PerformResult.exit 1,
       ["Docker image for " ++ compose_job_id "svc" "main" ++
        " not in deployments.json. Exiting. Has Jenkins deployed it?"],
       []) ∧
    (perform_command "start" "svc" "main" "app" true 3 "cl" []).1 =
      PerformResult.exit 0 ∧
    (perform_command "purge" "svc" "main" "app" true 3 "cl" []).1 =
      PerformResult.notImplementedError
        ("Command " ++ "purge" ++ " is not implemented!") :=
  ⟨(perform_command_dispatch "status" "svc" "main" "app" "cl" false 3
      ["x"]).1 rfl,
   (perform_command_dispatch "start" "svc" "main" "app" "cl" true 3 []).2.1
      rfl (Or.inl rfl),
   (perform_command_dispatch "purge" "svc" "main" "app" "cl" true 3 []).2.2
      rfl (by decide) (by decide) (by decide) (by decide)⟩

/-- In non-verbose mode the per-location report is exactly one replication
line per sorted location, each built with the shared per-location expected
count. -/
theorem pretty_print_non_verbose_eq_map (service_instance : String)
    (tasks : List MTask) (locations : List (String × List String))
    (expected_count : Nat) (getBackends : String → String → List Backend) :
    pretty_print_smartstack_backends_for_locations service_instance tasks
        locations expected_count false getBackends =
      (sort_locations locations).map
        (location_report_line service_instance tasks getBackends
          (expected_count_per_location expected_count locations.length)) := by
  simp only [pretty_print_smartstack_backends_for_locations,
    Bool.false_eq_true, if_false]
  generalize sort_locations locations = L
  induction L with
  | nil => rfl
  | cons x xs ih => simp [ih]

/-- C9 (counterexample): one discovery location whose backend poll returns
no Backends at all — so no DiscoveryLocation produced any Backend — still
yields a per-location replication line and no
absent-from-the-load-balancing-layer line; the absent line is reserved for
an empty discovery location set. -/
theorem smartstack_zero_backends_still_reports_location :
    status_smartstack_backends "svc" "main" "main" [("uswest1", ["host1"])]
        (fun _ _ => []) [] 3 false =
      ["Smartstack:",
       "    uswest1 - " ++ haproxy_backend_report 3 0] ∧
    "Smartstack: ERROR - " ++ compose_job_id "svc" "main" ++
        " is NOT in smartstack at all!" ∉
      status_smartstack_backends "svc" "main" "main" [("uswest1", ["host1"])]
        (fun _ _ => []) [] 3 false :=
  ⟨by decide, by decide⟩

/-- C9 (amended): for an instance announced in its own namespace, the
report is exactly one line stating the instance is NOT in smartstack at
all, with no per-location replication lines, precisely when the discovery
location set is empty; when at least one location exists — even if every
location's backend poll returns no Backends — the report is the Smartstack
header followed by one replication line per sorted location. -/
theorem smartstack_absent_iff_no_locations (service instanceName : String)
    (locations : List (String × List String))
    (getBackends : String → String → List Backend) (tasks : List MTask)
    (expected_count : Nat) :
    (locations = [] →
      status_smartstack_backends service instanceName instanceName locations
          getBackends tasks expected_count false =
        ["Smartstack: ERROR - " ++ compose_job_id service instanceName ++
         " is NOT in smartstack at all!"]) ∧
    (locations ≠ [] →
      status_smartstack_backends service instanceName instanceName locations
          getBackends tasks expected_count false =
        "Smartstack:" ::
          (sort_locations locations).map
            (location_report_line (compose_job_id service instanceName)
              tasks getBackends
              (expected_count_per_location expected_count
                locations.length))) := by
  refine ⟨?_, ?_⟩
  · intro h
    subst h
    simp [status_smartstack_backends]
  · intro h
    have hlen : ¬ locations.length = 0 := by
      simpa [List.length_eq_zero] using h
    simp [status_smartstack_backends, hlen, pretty_print_non_verbose_eq_map]

/-- C9 (witness): the amended statement applied to the spec's end-to-end
scenario — no discovery registration anywhere gives exactly the single
absent-from-smartstack line. -/
theorem smartstack_absent_iff_no_locations_witness :
    status_smartstack_backends "svc" "main" "main" []
        (fun _ _ => []) [] 4 false =
      ["Smartstack: ERROR - " ++ compose_job_id "svc" "main" ++
       " is NOT in smartstack at all!"] :=
  (smartstack_absent_iff_no_locations "svc" "main" [] (fun _ _ => []) []
      4).1 rfl

/-- C10: with a non-empty location set, every location's replication line is
built with the same expected count, the floor of expected_count divided by
the number of locations; that shared value times the location count never
exceeds expected_count and undercounts it by at most one less than the
number of locations. -/
theorem per_location_expected_count_floor (service_instance : String)
    (tasks : List MTask) (locations : List (String × List String))
    (expected_count : Nat) (getBackends : String → String → List Backend)
    (h : locations ≠ []) :
    pretty_print_smartstack_backends_for_locations service_instance tasks
        locations expected_count false getBackends =
      (sort_locations locations).map
        (location_report_line service_instance tasks getBackends
          (expected_count / locations.length)) ∧
    expected_count_per_location expected_count locations.length =
      expected_count / locations.length ∧
    locations.length * (expected_count / locations.length) ≤
      expected_count ∧
    expected_count -
        locations.length * (expected_count / locations.length) ≤
      locations.length - 1 := by
  have hpos : 0 < locations.length := List.length_pos.mpr h
  have hdm := Nat.div_add_mod expected_count locations.length
  have hmod := Nat.mod_lt expected_count hpos
  exact ⟨pretty_print_non_verbose_eq_map service_instance tasks locations
    expected_count getBackends, rfl, by omega, by omega⟩

/-- C10 (witness): the floor division applied at the spec's example —
expected 5 over 2 locations checks each location against 2, with total
undercount 1. -/
theorem per_location_expected_count_floor_witness :
    expected_count_per_location 5 2 = 5 / 2 ∧
    2 * (5 / 2) ≤ 5 ∧
    5 - 2 * (5 / 2) ≤ 2 - 1 ∧
    expected_count_per_location 5 2 = 2 := by
  have h := per_location_expected_count_floor "svc.main" []
    [("a", ["h1"]), ("b", ["h2"])] 5 (fun _ _ => []) (by decide)
  exact ⟨h.2.1, h.2.2.1, h.2.2.2, by decide⟩
